import Mathlib

/-!
Shallow embedding of `src/main.py` of the `analyze-forensic-timeline-generator`
repository, together with theorems about the embedded program.

The program parses log lines into timestamped events.  Its parsing core is
`parse_log_entry`, which splits a line at the first space character, attempts
to parse the resulting token with `datetime.strptime` against an ordered list
of format strings, and on success returns the timestamp together with the
rest of the line (stripped).  `process_log_file` applies this to every
non-blank line of a file, applies an optional keyword filter, and collects
event records; `main` validates the input paths, processes each file and
aggregates the events.

The embedding models `datetime.strptime` for the format directives that the
program can meaningfully use (`%Y %m %d %H %M %S %f %a %b`, literal
characters and whitespace), following CPython's `_strptime` implementation:
the format is compiled to a sequence of sub-patterns (runs of whitespace in
the format collapse to a single "one or more whitespace characters" pattern,
`%` followed by an unsupported directive or a trailing `%` makes the whole
attempt fail, exactly as the raised `ValueError` / `IndexError` is caught and
skipped by `parse_log_entry`), and matching is regex-like: the whole token
must be consumed, alternatives of each sub-pattern are tried in the order of
CPython's generated regular expression, with backtracking.  The numeric
values recovered are validated the way the `datetime` constructor validates
them (month/day ranges, seconds at most 59), a failure again counting as a
non-match of that format.
-/

namespace ForensicTimeline

/-- Whitespace characters matched by the regex class used by CPython
(`\s` over ASCII) and stripped by `str.strip`. -/
def isSpace (c : Char) : Bool :=
  c == ' ' || c == '\t' || c == '\n' || c == '\r' || c == '\x0b' || c == '\x0c'

/-- Numeric value of a decimal digit character. -/
def digitVal (c : Char) : Nat := c.toNat - '0'.toNat

/-- Value of a list of decimal digit characters, most significant first. -/
def natOfDigits (l : List Char) : Nat := l.foldl (fun acc c => 10 * acc + digitVal c) 0

/-- The result of a successful `datetime.strptime`: a naive datetime value. -/
structure DateTime where
  year : Nat
  month : Nat
  day : Nat
  hour : Nat
  minute : Nat
  second : Nat
  microsecond : Nat
deriving DecidableEq, Repr

/-- One compiled element of a `strptime` format string: a literal character,
a run of whitespace, or one of the numeric / name directives used by the
program's format lists. -/
inductive Dir
  | lit (c : Char)
  | ws
  | Y
  | m
  | d
  | H
  | M
  | S
  | f
  | a
  | b
deriving DecidableEq, Repr

/-- Directives supported by the embedding (the ones CPython's `_strptime`
knows and the program's formats use); `%%` denotes a literal percent sign. -/
def dirOfChar : Char → Option Dir
  | 'Y' => some Dir.Y
  | 'm' => some Dir.m
  | 'd' => some Dir.d
  | 'H' => some Dir.H
  | 'M' => some Dir.M
  | 'S' => some Dir.S
  | 'f' => some Dir.f
  | 'a' => some Dir.a
  | 'b' => some Dir.b
  | '%' => some (Dir.lit '%')
  | _ => none

/-- Compile a format string to directives, as CPython's `TimeRE.pattern`
builds a regex: runs of whitespace collapse to one `\s+`; an unknown
directive or a trailing `%` raises (`ValueError` / `IndexError`), which the
caller treats as a failed parse, so compilation returns `none` there. -/
def compileFmt : List Char → Option (List Dir)
  | [] => some []
  | '%' :: [] => none
  | '%' :: c :: rest =>
    match dirOfChar c with
    | some dr => (compileFmt rest).map (fun ds => dr :: ds)
    | none => none
  | c :: rest =>
    if isSpace c then
      match compileFmt rest with
      | some (Dir.ws :: ds) => some (Dir.ws :: ds)
      | some ds => some (Dir.ws :: ds)
      | none => none
    else
      (compileFmt rest).map (fun ds => Dir.lit c :: ds)

/-- Partial time structure filled while matching, with CPython's
`_strptime` default values (year 1900, January 1st, midnight). -/
structure TM where
  Y : Nat := 1900
  m : Nat := 1
  d : Nat := 1
  H : Nat := 0
  M : Nat := 0
  S : Nat := 0
  f : Nat := 0
deriving DecidableEq, Repr

/-- Case-insensitive "starts with" on character lists (CPython compiles the
`strptime` regex with `IGNORECASE`). -/
def ciStarts : List Char → List Char → Bool
  | [], _ => true
  | _ :: _, [] => false
  | p :: ps, c :: cs => (p.toLower == c.toLower) && ciStarts ps cs

/-- Abbreviated weekday names of the C locale, as `LocaleTime.a_weekday`
(the value matched by `%a`; it does not contribute to the datetime). -/
def WEEKDAY_ABBRS : List (List Char) :=
  [['m','o','n'], ['t','u','e'], ['w','e','d'], ['t','h','u'],
   ['f','r','i'], ['s','a','t'], ['s','u','n']]

/-- Abbreviated month names of the C locale with their month numbers, as
`LocaleTime.a_month` (matched by `%b`). -/
def MONTH_ABBRS : List (Nat × List Char) :=
  [(1, ['j','a','n']), (2, ['f','e','b']), (3, ['m','a','r']), (4, ['a','p','r']),
   (5, ['m','a','y']), (6, ['j','u','n']), (7, ['j','u','l']), (8, ['a','u','g']),
   (9, ['s','e','p']), (10, ['o','c','t']), (11, ['n','o','v']), (12, ['d','e','c'])]

/-- Alternatives of the `\s+` pattern a whitespace run in the format compiles
to: each consumes one or more leading whitespace characters, greedily
(longest first), exactly the regex backtracking order. -/
def wsAlts (cs : List Char) : List ((TM → TM) × List Char) :=
  let run := cs.takeWhile isSpace
  (List.range run.length).map (fun i => (id, cs.drop (run.length - i)))

/-- `%Y` compiles to `\d\d\d\d`: exactly four digits. -/
def yAlt : List Char → List (Nat × List Char)
  | c0 :: c1 :: c2 :: c3 :: rest =>
    if c0.isDigit && c1.isDigit && c2.isDigit && c3.isDigit then
      [(natOfDigits [c0, c1, c2, c3], rest)] else []
  | _ => []

/-- `%m` compiles to `1[0-2]|0[1-9]|[1-9]`; alternatives in regex order. -/
def mAlts : List Char → List (Nat × List Char)
  | c0 :: c1 :: rest =>
    (if c0 == '1' && c1.isDigit && digitVal c1 ≤ 2 then [(10 + digitVal c1, rest)] else []) ++
    (if c0 == '0' && c1.isDigit && 1 ≤ digitVal c1 then [(digitVal c1, rest)] else []) ++
    (if c0.isDigit && 1 ≤ digitVal c0 then [(digitVal c0, c1 :: rest)] else [])
  | c0 :: [] =>
    if c0.isDigit && 1 ≤ digitVal c0 then [(digitVal c0, [])] else []
  | [] => []

/-- `%d` compiles to `3[01]|[12]\d|0[1-9]|[1-9]`; alternatives in regex order. -/
def dAlts : List Char → List (Nat × List Char)
  | c0 :: c1 :: rest =>
    (if c0 == '3' && (c1 == '0' || c1 == '1') then [(30 + digitVal c1, rest)] else []) ++
    (if (c0 == '1' || c0 == '2') && c1.isDigit then [(10 * digitVal c0 + digitVal c1, rest)] else []) ++
    (if c0 == '0' && c1.isDigit && 1 ≤ digitVal c1 then [(digitVal c1, rest)] else []) ++
    (if c0.isDigit && 1 ≤ digitVal c0 then [(digitVal c0, c1 :: rest)] else [])
  | c0 :: [] =>
    if c0.isDigit && 1 ≤ digitVal c0 then [(digitVal c0, [])] else []
  | [] => []

/-- `%H` compiles to `2[0-3]|[0-1]\d|\d`; alternatives in regex order. -/
def hAlts : List Char → List (Nat × List Char)
  | c0 :: c1 :: rest =>
    (if c0 == '2' && c1.isDigit && digitVal c1 ≤ 3 then [(20 + digitVal c1, rest)] else []) ++
    (if (c0 == '0' || c0 == '1') && c1.isDigit then [(10 * digitVal c0 + digitVal c1, rest)] else []) ++
    (if c0.isDigit then [(digitVal c0, c1 :: rest)] else [])
  | c0 :: [] =>
    if c0.isDigit then [(digitVal c0, [])] else []
  | [] => []

/-- `%M` compiles to `[0-5]\d|\d`; alternatives in regex order. -/
def minAlts : List Char → List (Nat × List Char)
  | c0 :: c1 :: rest =>
    (if c0.isDigit && digitVal c0 ≤ 5 && c1.isDigit then [(10 * digitVal c0 + digitVal c1, rest)] else []) ++
    (if c0.isDigit then [(digitVal c0, c1 :: rest)] else [])
  | c0 :: [] =>
    if c0.isDigit then [(digitVal c0, [])] else []
  | [] => []

/-- `%S` compiles to `6[0-1]|[0-5]\d|\d`; alternatives in regex order
(the leap-second values 60 and 61 are accepted by the pattern and rejected
later by the `datetime` constructor). -/
def sAlts : List Char → List (Nat × List Char)
  | c0 :: c1 :: rest =>
    (if c0 == '6' && (c1 == '0' || c1 == '1') then [(60 + digitVal c1, rest)] else []) ++
    (if c0.isDigit && digitVal c0 ≤ 5 && c1.isDigit then [(10 * digitVal c0 + digitVal c1, rest)] else []) ++
    (if c0.isDigit then [(digitVal c0, c1 :: rest)] else [])
  | c0 :: [] =>
    if c0.isDigit then [(digitVal c0, [])] else []
  | [] => []

/-- `%f` compiles to `[0-9]{1,6}`: one to six digits, greedily; the value is
right-padded with zeros to microseconds. -/
def fAlts (cs : List Char) : List (Nat × List Char)  :=
  let run := (cs.takeWhile (fun c => c.isDigit)).take 6
  (List.range run.length).map (fun i =>
    let len := run.length - i
    (natOfDigits (run.take len) * 10 ^ (6 - len), cs.drop len))

/-- `%a` matches an abbreviated weekday name, case-insensitively; the
weekday does not flow into the datetime when a full date is given. -/
def aAlts (cs : List Char) : List ((TM → TM) × List Char) :=
  WEEKDAY_ABBRS.filterMap (fun w =>
    if ciStarts w cs then some (id, cs.drop w.length) else none)

/-- `%b` matches an abbreviated month name, case-insensitively.  CPython
builds the alternation from `a_month`, whose first entry is the empty string
and sorts last, so the compiled regex also admits an empty match yielding
month index 0 (rejected later by the `datetime` constructor). -/
def bAlts (cs : List Char) : List ((TM → TM) × List Char) :=
  (MONTH_ABBRS.filterMap (fun p =>
    if ciStarts p.2 cs then some (fun t => { t with m := p.1 }, cs.drop p.2.length) else none)) ++
  [(fun t => { t with m := 0 }, cs)]

/-- All ways one directive can match a prefix of the input, in the order the
compiled regular expression would try them. -/
def alts : Dir → List Char → List ((TM → TM) × List Char)
  | Dir.lit c, x :: rest => if x.toLower == c.toLower then [(id, rest)] else []
  | Dir.lit _, [] => []
  | Dir.ws, cs => wsAlts cs
  | Dir.Y, cs => (yAlt cs).map (fun p => (fun t => { t with Y := p.1 }, p.2))
  | Dir.m, cs => (mAlts cs).map (fun p => (fun t => { t with m := p.1 }, p.2))
  | Dir.d, cs => (dAlts cs).map (fun p => (fun t => { t with d := p.1 }, p.2))
  | Dir.H, cs => (hAlts cs).map (fun p => (fun t => { t with H := p.1 }, p.2))
  | Dir.M, cs => (minAlts cs).map (fun p => (fun t => { t with M := p.1 }, p.2))
  | Dir.S, cs => (sAlts cs).map (fun p => (fun t => { t with S := p.1 }, p.2))
  | Dir.f, cs => (fAlts cs).map (fun p => (fun t => { t with f := p.1 }, p.2))
  | Dir.a, cs => aAlts cs
  | Dir.b, cs => bAlts cs

/-- Backtracking matcher: match the directives against the input in order;
the whole input must be consumed (CPython raises "unconverted data remains"
otherwise, treated as a failed parse).  The fuel argument only bounds the
recursion depth; one directive is consumed per step, so `length + 1` fuel is
always sufficient. -/
def matchDirs : Nat → List Dir → List Char → TM → Option TM
  | 0, _, _, _ => none
  | _ + 1, [], cs, t => if cs.isEmpty then some t else none
  | fuel + 1, dr :: ds, cs, t =>
    (alts dr cs).findSome? (fun p => matchDirs fuel ds p.2 (p.1 t))

/-- Gregorian leap-year rule, as `datetime` uses it. -/
def isLeap (y : Nat) : Bool := (y % 4 == 0 && y % 100 != 0) || y % 400 == 0

/-- Days in a month, as validated by the `datetime` constructor. -/
def daysInMonth (y m : Nat) : Nat :=
  if m == 2 then (if isLeap y then 29 else 28)
  else if m == 4 || m == 6 || m == 9 || m == 11 then 30
  else 31

/-- The `datetime(...)` constructor call at the end of `strptime`: a
`ValueError` for an out-of-range field (month 0 from an empty `%b` match,
day beyond the month's length, leap seconds) propagates to the caller and is
treated there as a failed parse, so it yields `none` here. -/
def mkDatetime (t : TM) : Option DateTime :=
  if 1 ≤ t.Y && 1 ≤ t.m && t.m ≤ 12 && 1 ≤ t.d && t.d ≤ daysInMonth t.Y t.m && t.S ≤ 59 then
    some ⟨t.Y, t.m, t.d, t.H, t.M, t.S, t.f⟩
  else none

/-- `datetime.strptime(s, fmt)` restricted to the directives above, with
every raised `ValueError` / `IndexError` (bad directive, non-matching input,
leftover input, out-of-range field) collapsed to `none`, because
`parse_log_entry` catches exactly those exceptions and moves on. -/
def strptime (s fmt : String) : Option DateTime :=
  match compileFmt fmt.data with
  | none => none
  | some ds =>
    match matchDirs (ds.length + 1) ds s.data {} with
    | none => none
    | some t => mkDatetime t

/-- The module-level `TIMESTAMP_FORMATS` list of `main.py` (lines 12-21). -/
def TIMESTAMP_FORMATS : List String :=
  ["%Y-%m-%d %H:%M:%S",
   "%Y-%m-%d %H:%M:%S.%f",
   "%m/%d/%Y %H:%M:%S",
   "%m/%d/%Y %H:%M:%S.%f",
   "%Y/%m/%d %H:%M:%S",
   "%Y/%m/%d %H:%M:%S.%f",
   "%a %b %d %H:%M:%S %Y",
   "%a %b %d %H:%M:%S.%f %Y"]

/-- The module-level `EVENT_PRIORITIES` dictionary of `main.py` (lines 24-30);
`none` models a key that is not in the dictionary. -/
def EVENT_PRIORITIES : String → Option Nat
  | "critical" => some 1
  | "high" => some 2
  | "medium" => some 3
  | "low" => some 4
  | "info" => some 5
  | _ => none

/-- `log_entry.split(" ", 1)[0]`: everything before the first space character
(the whole string when it has no space). -/
def firstToken (s : String) : String := ⟨s.data.takeWhile (fun c => c != ' ')⟩

/-- Python's `str.strip()` on the whitespace characters of `isSpace`. -/
def pyStrip (s : String) : String :=
  ⟨((s.data.dropWhile isSpace).reverse.dropWhile isSpace).reverse⟩

/-- `parse_log_entry` (main.py lines 51-75): for each format in order, take
the text before the first space as the candidate timestamp, try to parse it;
on the first success return the timestamp and the stripped remainder of the
line; if every format fails return `none` together with the raw line. -/
def parse_log_entry (log_entry : String) (timestamp_formats : List String) :
    Option DateTime × String :=
  match timestamp_formats with
  | [] => (none, log_entry)
  | fmt :: rest =>
    let timestamp_str := firstToken log_entry
    match strptime timestamp_str fmt with
    | some dt => (some dt, pyStrip ⟨log_entry.data.drop timestamp_str.data.length⟩)
    | none => parse_log_entry log_entry rest

/-- The event record dictionary appended at main.py line 101. -/
structure Event where
  timestamp : DateTime
  description : String
  source : String
deriving DecidableEq, Repr

/-- The keyword condition of main.py line 100:
`keywords is None or any(keyword.lower() in description.lower() for keyword in keywords)`.
`containsChars` below is Python's substring operator `in`. -/
def startsChars : List Char → List Char → Bool
  | [], _ => true
  | _ :: _, [] => false
  | a :: as, b :: bs => (a == b) && startsChars as bs

/-- Python's `needle in hay` on strings, over character lists. -/
def containsChars (needle : List Char) : List Char → Bool
  | [] => needle.isEmpty
  | c :: rest => startsChars needle (c :: rest) || containsChars needle rest

/-- `str.lower()` (ASCII-relevant part). -/
def toLowerStr (s : String) : String := ⟨s.data.map Char.toLower⟩

/-- The retention test of main.py line 100; `none` is an absent `keywords`
argument (`keywords is None`). -/
def keywordMatch (keywords : Option (List String)) (description : String) : Bool :=
  match keywords with
  | none => true
  | some ks =>
    ks.any (fun keyword => containsChars (toLowerStr keyword).data (toLowerStr description).data)

/-- The warning logged at main.py line 104 for a line whose timestamp could
not be parsed (the f-string rendered by concatenation). -/
def warnMsg (line src : String) : String :=
  "Could not parse timestamp in line: " ++ line ++ " from " ++ src

/-- The body of the `for line in f` loop of `process_log_file`
(main.py lines 92-104) for one raw line: strip it, skip it when blank,
otherwise parse it; a parsed line contributes an event record when the
keyword test passes, an unparsed line contributes a warning. -/
def lineStep (src : String) (fmts : List String) (keywords : Option (List String))
    (l : String) : List Event × List String :=
  let line := pyStrip l
  if line = "" then ([], [])
  else
    match parse_log_entry line fmts with
    | (some dt, description) =>
      (if keywordMatch keywords description then [⟨dt, description, src⟩] else [], [])
    | (none, _) => ([], [warnMsg line src])

/-- The whole `for line in f` loop: per-line contributions concatenated in
line order (the loop appends to `events` and logs as it goes). -/
def processLines (src : String) (fmts : List String) (keywords : Option (List String)) :
    List String → List Event × List String
  | [] => ([], [])
  | l :: rest =>
    let cur := lineStep src fmts keywords l
    let r := processLines src fmts keywords rest
    (cur.1 ++ r.1, cur.2 ++ r.2)

/-- What the runtime delivers when `process_log_file` opens and reads a file:
the file may be missing (`FileNotFoundError`), or it yields a list of lines,
possibly cut short by an I/O error (`readError`) that aborts the loop after
the delivered lines. -/
inductive FileOutcome
  | notFound
  | content (lines : List String) (readError : Bool)

/-- Result of `process_log_file`: the returned `events` list and the
diagnostics logged on the way (warning and error messages, with the
exception text of main.py line 109 elided). -/
structure ProcOut where
  events : List Event
  diagnostics : List String
deriving DecidableEq, Repr

/-- `process_log_file` (main.py lines 78-110).  A missing file logs an error
and yields no events; an I/O error mid-read is caught by the generic
`except`, logs an error, and the function returns the events accumulated up
to that point.  The function never raises. -/
def process_log_file (outcome : FileOutcome) (log_file_path : String)
    (timestamp_formats : List String) (keywords : Option (List String)) : ProcOut :=
  match outcome with
  | FileOutcome.notFound => ⟨[], ["Log file not found: " ++ log_file_path]⟩
  | FileOutcome.content lines readError =>
    let r := processLines log_file_path timestamp_formats keywords lines
    ⟨r.1, r.2 ++ (if readError then ["Error processing log file " ++ log_file_path] else [])⟩

/-- The filesystem as `main` observes it: the `os.path.isfile` test and what
opening each path delivers. -/
structure FS where
  isfile : String → Bool
  read : String → FileOutcome

/-- The parsed command-line options that influence the computed events
(main.py lines 40-44): positional file paths, optional `-tsf` format
overrides, `-p` priority name, optional `-k` keyword list.  Output path and
flags that only affect writing/verbosity are omitted: they do not feed into
the event computation. -/
structure Args where
  log_files : List String
  timestamp_format : Option (List String)
  priority : String
  keywords : Option (List String)

/-- Result of a run of `main` (main.py lines 113-156) up to the point where
the events are handed to pandas: process exit status, the concatenated event
list in file order (the `all_events` list of line 138), and the diagnostics
logged.  `main` returns `None` on every modeled path - including the
invalid-path early `return` of line 127 - so the interpreter exits with
status 0. -/
structure RunOut where
  exitCode : Nat
  events : List Event
  diagnostics : List String

/-- `main` (main.py lines 113-141): validate every path with `os.path.isfile`
before any processing, returning early (exit status 0, error logged) at the
first invalid path; otherwise fall back to `TIMESTAMP_FORMATS` when no `-tsf`
was given, resolve the priority name (`min_priority_level` is computed and
never used afterwards), and process each file in argument order. -/
def mainRun (fs : FS) (args : Args) : RunOut :=
  match args.log_files.find? (fun f => !fs.isfile f) with
  | some bad => ⟨0, [], ["Invalid log file path: " ++ bad]⟩
  | none =>
    let timestamp_formats := args.timestamp_format.getD TIMESTAMP_FORMATS
    let _min_priority_level := EVENT_PRIORITIES args.priority
    let results := args.log_files.map
      (fun f => process_log_file (fs.read f) f timestamp_formats args.keywords)
    ⟨0, (results.map ProcOut.events).flatten, (results.map ProcOut.diagnostics).flatten⟩

/-- Concrete filesystem: every path exists and every file yields one
parseable line followed by a mid-read I/O error. -/
def fsW : FS := ⟨fun _ => true, fun _ => FileOutcome.content ["2024 x"] true⟩

/-- Concrete argument vector over `fsW`: two files, a custom format list. -/
def argsW : Args := ⟨["a.log", "b.log"], some ["%Y"], "info", none⟩

/-- Concrete filesystem on which no path exists. -/
def fsEmpty : FS := ⟨fun _ => false, fun _ => FileOutcome.notFound⟩

end ForensicTimeline

namespace ForensicTimeline

example : strptime "2024" "%Y" = some ⟨2024, 1, 1, 0, 0, 0, 0⟩ := by decide

example : strptime "2024-01-15 10:30:00" "%Y-%m-%d %H:%M:%S" = some ⟨2024, 1, 15, 10, 30, 0, 0⟩ := by decide

example : strptime "2024-01-15" "%Y-%m-%d %H:%M:%S" = none := by decide

example : strptime "01/15/2024 10:30:00.123" "%m/%d/%Y %H:%M:%S.%f" = some ⟨2024, 1, 15, 10, 30, 0, 123000⟩ := by decide

example : strptime "Mon Jan 15 10:30:00 2024" "%a %b %d %H:%M:%S %Y" = some ⟨2024, 1, 15, 10, 30, 0, 0⟩ := by decide

example : strptime "2024-02-30 10:30:00" "%Y-%m-%d %H:%M:%S" = none := by decide

example : parse_log_entry "2024-01-15 10:30:00 Disk failure detected" TIMESTAMP_FORMATS
    = (none, "2024-01-15 10:30:00 Disk failure detected") := by decide

example : parse_log_entry "2024" ["%Y"] = (some ⟨2024, 1, 1, 0, 0, 0, 0⟩, "") := by decide

example :
    process_log_file (FileOutcome.content ["2024 boom"] true) "f.log" ["%Y"] none
      = ⟨[⟨⟨2024, 1, 1, 0, 0, 0, 0⟩, "boom", "f.log"⟩],
         ["Error processing log file f.log"]⟩ := by decide

example : keywordMatch (some ["error"]) "Network ERROR occurred" = true := by decide

example : keywordMatch (some []) "anything" = false := by decide

example : keywordMatch (some [""]) "anything" = true := by decide

/-! ### Helper lemmas about the embedded program -/

/-- When every format fails on the candidate token, `parse_log_entry` falls
through its loop and returns `(None, log_entry)` (main.py line 75). -/
theorem parse_log_entry_of_all_fail (T : String) (G : List String)
    (h : ∀ g ∈ G, strptime (firstToken T) g = none) :
    parse_log_entry T G = (none, T) := by
  induction G with
  | nil => rfl
  | cons g gs ih =>
    have hg : strptime (firstToken T) g = none := h g (List.mem_cons_self g gs)
    simp only [parse_log_entry, hg]
    exact ih (fun g' hm => h g' (List.mem_cons_of_mem g hm))

/-- The loop of `parse_log_entry` returns the result of the first format
that parses the candidate token, together with the stripped remainder. -/
theorem parse_log_entry_first_hit (T fmt : String) (G1 G2 : List String) (dt : DateTime)
    (h1 : ∀ g ∈ G1, strptime (firstToken T) g = none)
    (h2 : strptime (firstToken T) fmt = some dt) :
    parse_log_entry T (G1 ++ fmt :: G2)
      = (some dt, pyStrip ⟨T.data.drop (firstToken T).data.length⟩) := by
  induction G1 with
  | nil => simp only [List.nil_append, parse_log_entry, h2]
  | cons g gs ih =>
    have hg : strptime (firstToken T) g = none := h1 g (List.mem_cons_self g gs)
    simp only [List.cons_append, parse_log_entry, hg]
    exact ih (fun g' hm => h1 g' (List.mem_cons_of_mem g hm))

/-- `startsChars n h` holds exactly when `n` is a prefix of `h`. -/
theorem startsChars_iff (n : List Char) : ∀ h : List Char,
    (startsChars n h = true ↔ ∃ t, n ++ t = h) := by
  induction n with
  | nil =>
    intro h
    constructor
    · intro _; exact ⟨h, List.nil_append h⟩
    · intro _; rfl
  | cons a as ih =>
    intro h
    cases h with
    | nil =>
      simp only [startsChars]
      constructor
      · intro hfalse; cases hfalse
      · rintro ⟨t, ht⟩; cases ht
    | cons b bs =>
      simp only [startsChars, Bool.and_eq_true, beq_iff_eq, ih bs]
      constructor
      · rintro ⟨rfl, t, rfl⟩; exact ⟨t, rfl⟩
      · rintro ⟨t, ht⟩
        injection ht with h1 h2
        exact ⟨h1, t, h2⟩

/-- `containsChars n h` is Python's substring test `n in h`: it holds
exactly when `h` splits as `s ++ n ++ t`. -/
theorem containsChars_iff (n : List Char) : ∀ h : List Char,
    (containsChars n h = true ↔ ∃ s t, s ++ n ++ t = h) := by
  intro h
  induction h with
  | nil =>
    simp only [containsChars, List.isEmpty_iff]
    constructor
    · rintro rfl; exact ⟨[], [], rfl⟩
    · rintro ⟨s, t, ht⟩
      rcases List.append_eq_nil.mp ht with ⟨hsn, -⟩
      exact (List.append_eq_nil.mp hsn).2
  | cons c rest ih =>
    simp only [containsChars, Bool.or_eq_true, startsChars_iff, ih]
    constructor
    · rintro (⟨t, ht⟩ | ⟨s, t, ht⟩)
      · exact ⟨[], t, by simpa using ht⟩
      · exact ⟨c :: s, t, by simp [ht]⟩
    · rintro ⟨s, t, ht⟩
      cases s with
      | nil => exact Or.inl ⟨t, by simpa using ht⟩
      | cons x xs =>
        injection ht with h1 h2
        exact Or.inr ⟨xs, t, h2⟩

/-- A line without a space character is its own candidate token. -/
theorem firstToken_of_no_space (L : String) (hw : ∀ c ∈ L.data, c ≠ ' ') :
    firstToken L = L := by
  cases L with
  | mk l =>
    show String.mk (l.takeWhile (fun c => c != ' ')) = String.mk l
    rw [List.takeWhile_eq_self_iff.mpr]
    intro c hc
    simpa using hw c hc

/-- Every event collected by the line loop comes from a non-blank line whose
stripped text parsed to exactly that timestamp and description and passed
the keyword test. -/
theorem processLines_events_sound (src : String) (fmts : List String)
    (ks : Option (List String)) (lines : List String) :
    ∀ e ∈ (processLines src fmts ks lines).1,
      ∃ l ∈ lines, pyStrip l ≠ "" ∧
        parse_log_entry (pyStrip l) fmts = (some e.timestamp, e.description) ∧
        e.source = src ∧ keywordMatch ks e.description = true := by
  induction lines with
  | nil => intro e he; simp [processLines] at he
  | cons l rest ih =>
    intro e he
    simp only [processLines] at he
    rcases List.mem_append.mp he with hcur | hrest
    · by_cases hblank : pyStrip l = ""
      · simp [lineStep, hblank] at hcur
      · rcases hp : parse_log_entry (pyStrip l) fmts with ⟨odt, desc⟩
        cases odt with
        | none => simp [lineStep, hblank, hp] at hcur
        | some dt =>
          by_cases hk : keywordMatch ks desc = true
          · simp [lineStep, hblank, hp, hk] at hcur
            subst hcur
            exact ⟨l, List.mem_cons_self l rest, hblank, hp, rfl, hk⟩
          · simp [lineStep, hblank, hp, hk] at hcur
    · rcases ih e hrest with ⟨l', hl', hrest'⟩
      exact ⟨l', List.mem_cons_of_mem l hl', hrest'⟩

/-- A non-blank line whose timestamp does not parse contributes the warning
of main.py line 104 to the diagnostics of the line loop. -/
theorem processLines_warns_on_fail (src : String) (fmts : List String)
    (ks : Option (List String)) (lines : List String) :
    ∀ l ∈ lines, pyStrip l ≠ "" → (parse_log_entry (pyStrip l) fmts).1 = none →
      warnMsg (pyStrip l) src ∈ (processLines src fmts ks lines).2 := by
  induction lines with
  | nil => intro l hl; cases hl
  | cons x rest ih =>
    intro l hl hblank hfail
    simp only [processLines]
    rcases List.mem_cons.mp hl with rfl | hmem
    · rcases hp : parse_log_entry (pyStrip l) fmts with ⟨odt, desc⟩
      rw [hp] at hfail
      cases odt with
      | some dt => cases hfail
      | none =>
        apply List.mem_append.mpr
        left
        simp [lineStep, hblank, hp]
    · exact List.mem_append.mpr (Or.inr (ih l hmem hblank hfail))

/-- With the explicit empty keyword list, the per-line keyword test always
fails and the line loop collects no event at all. -/
theorem processLines_empty_keywords (src : String) (fmts : List String)
    (lines : List String) :
    (processLines src fmts (some []) lines).1 = [] := by
  induction lines with
  | nil => rfl
  | cons l rest ih =>
    simp only [processLines, ih, List.append_nil]
    by_cases hblank : pyStrip l = ""
    · simp [lineStep, hblank]
    · rcases hp : parse_log_entry (pyStrip l) fmts with ⟨odt, desc⟩
      cases odt with
      | none => simp [lineStep, hblank, hp]
      | some dt => simp [lineStep, hblank, hp, keywordMatch]

/-! ### Claim theorems -/

/-- C1: the spec's Scenario 1 expects the line
`"2024-01-15 10:30:00 Disk failure detected"` to yield an event with
timestamp 2024-01-15T10:30:00 and description `"Disk failure detected"`.
The code instead fails to parse the line: the candidate token is the text
before the first space, `"2024-01-15"`, and every default format requires a
time component after whitespace, so none can match the token - even though
the full date-time prefix of the line does match the first default format.
`parse_log_entry` therefore returns no timestamp and the raw line, and the
line is only logged as a warning, producing no event. -/
theorem C1_scenario1_produces_no_event :
    parse_log_entry "2024-01-15 10:30:00 Disk failure detected" TIMESTAMP_FORMATS
      = (none, "2024-01-15 10:30:00 Disk failure detected") ∧
    firstToken "2024-01-15 10:30:00 Disk failure detected" = "2024-01-15" ∧
    (TIMESTAMP_FORMATS.map (fun g => strptime "2024-01-15" g)).all Option.isNone = true ∧
    strptime "2024-01-15 10:30:00" "%Y-%m-%d %H:%M:%S"
      = some ⟨2024, 1, 15, 10, 30, 0, 0⟩ ∧
    (process_log_file
        (FileOutcome.content ["2024-01-15 10:30:00 Disk failure detected"] false)
        "sys.log" TIMESTAMP_FORMATS none).events = [] := by
  refine ⟨by decide, by decide, by decide, by decide, by decide⟩

/-- C2: the matcher loop of `parse_log_entry` is first-match-wins: it
returns the parse result of the first format in the list that parses the
candidate token, and a no-match result exactly when every format fails; a
later-listed format is never selected when an earlier one succeeds. -/
theorem C2_first_match_wins (G1 G2 : List String) (fmt T : String) (dt : DateTime)
    (h1 : ∀ g ∈ G1, strptime (firstToken T) g = none)
    (h2 : strptime (firstToken T) fmt = some dt) :
    (parse_log_entry T (G1 ++ fmt :: G2)).1 = some dt ∧
    ∀ G, (∀ g ∈ G, strptime (firstToken T) g = none) →
      parse_log_entry T G = (none, T) := by
  constructor
  · rw [parse_log_entry_first_hit T fmt G1 G2 dt h1 h2]
  · exact fun G hG => parse_log_entry_of_all_fail T G hG

/-- C2 witness: on token `"2024"`, the first format `"%m/%d"` fails and the
second `"%Y"` succeeds, so the second's result is returned; with only the
failing format the result is no-match. -/
theorem C2_first_match_wins_witness :
    (parse_log_entry "2024" ["%m/%d", "%Y"]).1 = some ⟨2024, 1, 1, 0, 0, 0, 0⟩ ∧
    parse_log_entry "2024" ["%m/%d"] = (none, "2024") := by
  have h := C2_first_match_wins ["%m/%d"] [] "%Y" "2024" ⟨2024, 1, 1, 0, 0, 0, 0⟩
    (by decide) (by decide)
  exact ⟨h.1, h.2 ["%m/%d"] (by decide)⟩

/-- C3: every event collected from a file comes from a line whose stripped
text parsed to exactly the event's timestamp and description (an event is
only constructed when a timestamp was recognized), and every non-blank line
whose timestamp fails to parse is surfaced as a warning diagnostic - such a
line cannot also be an event, since any event's line parsed successfully. -/
theorem C3_events_only_when_timestamp_parsed (lines : List String) (err : Bool)
    (src : String) (fmts : List String) (ks : Option (List String)) :
    (∀ e ∈ (process_log_file (FileOutcome.content lines err) src fmts ks).events,
       ∃ l ∈ lines, pyStrip l ≠ "" ∧
         parse_log_entry (pyStrip l) fmts = (some e.timestamp, e.description) ∧
         e.source = src) ∧
    (∀ l ∈ lines, pyStrip l ≠ "" → (parse_log_entry (pyStrip l) fmts).1 = none →
       warnMsg (pyStrip l) src ∈
         (process_log_file (FileOutcome.content lines err) src fmts ks).diagnostics) := by
  constructor
  · intro e he
    have he' : e ∈ (processLines src fmts ks lines).1 := he
    rcases processLines_events_sound src fmts ks lines e he' with
      ⟨l, hl, hblank, hp, hsrc, -⟩
    exact ⟨l, hl, hblank, hp, hsrc⟩
  · intro l hl hblank hfail
    have hw := processLines_warns_on_fail src fmts ks lines l hl hblank hfail
    show warnMsg (pyStrip l) src ∈
      (processLines src fmts ks lines).2 ++
        (if err then ["Error processing log file " ++ src] else [])
    exact List.mem_append.mpr (Or.inl hw)

/-- C3 witness: the unparsable line `"garbage"` yields a warning diagnostic
(and, by the theorem's first part, could never yield an event). -/
theorem C3_events_only_when_timestamp_parsed_witness :
    warnMsg "garbage" "a.log" ∈
      (process_log_file (FileOutcome.content ["garbage"] false) "a.log"
        TIMESTAMP_FORMATS none).diagnostics := by
  have h := (C3_events_only_when_timestamp_parsed ["garbage"] false "a.log"
    TIMESTAMP_FORMATS none).2 "garbage" (by decide) (by decide) (by decide)
  exact h

/-- C4 counterexample: the claim says a single-word line always yields a
"no timestamp" result with the full line as description, regardless of the
grammar list.  With grammar list `["%Y"]` the single-word line `"2024"`
parses: the result carries a timestamp and an empty description, not
`(none, "2024")`. -/
theorem C4_counterexample :
    "2024".data.all (fun c => c != ' ') = true ∧
    parse_log_entry "2024" ["%Y"] ≠ (none, "2024") ∧
    parse_log_entry "2024" ["%Y"] = (some ⟨2024, 1, 1, 0, 0, 0, 0⟩, "") := by
  refine ⟨by decide, by decide, by decide⟩

/-- C4 amended: for a line with no space character, the whole line is the
candidate token, and when additionally no grammar in the list parses it the
parser returns the "no timestamp" result with description equal to the full
line.  (The qualification "no grammar parses it" is forced: a grammar that
parses the whole word yields a timestamp and an empty description.  The
default grammar list parses no whitespace-free token, since each of its
formats demands internal whitespace.) -/
theorem C4_amended_single_word (L : String) (G : List String)
    (hw : ∀ c ∈ L.data, c ≠ ' ')
    (h : ∀ g ∈ G, strptime L g = none) :
    parse_log_entry L G = (none, L) := by
  have ht : firstToken L = L := firstToken_of_no_space L hw
  exact parse_log_entry_of_all_fail L G (fun g hg => by rw [ht]; exact h g hg)

/-- C4 amended witness: the single-word line `"garbage"` with the default
grammar list returns `(none, "garbage")`. -/
theorem C4_amended_single_word_witness :
    parse_log_entry "garbage" TIMESTAMP_FORMATS = (none, "garbage") :=
  C4_amended_single_word "garbage" TIMESTAMP_FORMATS (by decide) (by decide)

/-- C5: the retention test of main.py line 100.  An absent keyword list
(`None`) retains every event; a supplied keyword list retains an event
exactly when some keyword's lowercasing occurs as a contiguous substring of
the lowercased description; in particular the empty-string keyword matches
every description. -/
theorem C5_keyword_filter (d : String) (ks : List String) (kws : Option (List String)) :
    (kws = none → keywordMatch kws d = true) ∧
    (kws = some ks →
      (keywordMatch kws d = true ↔
        ∃ k ∈ ks, ∃ s t, s ++ (toLowerStr k).data ++ t = (toLowerStr d).data)) ∧
    (kws = some ks → "" ∈ ks → keywordMatch kws d = true) := by
  refine ⟨fun h => by rw [h]; rfl, fun h => ?_, fun h hmem => ?_⟩
  · subst h
    show List.any ks _ = true ↔ _
    rw [List.any_eq_true]
    constructor
    · rintro ⟨k, hk, hc⟩
      exact ⟨k, hk, (containsChars_iff (toLowerStr k).data (toLowerStr d).data).mp hc⟩
    · rintro ⟨k, hk, hs⟩
      exact ⟨k, hk, (containsChars_iff (toLowerStr k).data (toLowerStr d).data).mpr hs⟩
  · subst h
    show List.any ks _ = true
    rw [List.any_eq_true]
    refine ⟨"", hmem, ?_⟩
    exact (containsChars_iff [] (toLowerStr d).data).mpr ⟨[], (toLowerStr d).data, rfl⟩

/-- C5 witness: keyword `"error"` retains description
`"Network ERROR occurred"` (case-insensitive substring), by the iff of the
theorem with the explicit split `"network " ++ "error" ++ " occurred"`. -/
theorem C5_keyword_filter_witness :
    keywordMatch (some ["error"]) "Network ERROR occurred" = true := by
  have h := (C5_keyword_filter "Network ERROR occurred" ["error"]
    (some ["error"])).2.1 rfl
  exact h.mpr ⟨"error", by decide, "network ".data, " occurred".data, by decide⟩

/-- C7 counterexample: the claim says a file hit by a mid-read I/O failure
contributes zero events.  A file that delivers the parseable line
`"2024 boom"` and then fails contributes that event: the `except` clause of
`process_log_file` logs the error and the accumulated `events` list - here
non-empty - is returned. -/
theorem C7_counterexample :
    (process_log_file (FileOutcome.content ["2024 boom"] true) "f.log" ["%Y"] none).events
      = [⟨⟨2024, 1, 1, 0, 0, 0, 0⟩, "boom", "f.log"⟩] ∧
    "Error processing log file f.log" ∈
      (process_log_file (FileOutcome.content ["2024 boom"] true) "f.log" ["%Y"] none).diagnostics := by
  refine ⟨by decide, by decide⟩

/-- C7 amended: a file that suffers an I/O failure mid-read contributes
exactly the events parsed from the lines delivered before the failure
(possibly none, but not necessarily zero); the failure is reported as an
error diagnostic; and the run's event list is still the concatenation of
every file's events in argument order, so the remaining files are processed
normally. -/
theorem C7_amended_partial_events (lines : List String) (src : String)
    (fmts : List String) (ks : Option (List String)) (fs : FS) (args : Args)
    (hall : ∀ f ∈ args.log_files, fs.isfile f = true) :
    (process_log_file (FileOutcome.content lines true) src fmts ks).events
      = (process_log_file (FileOutcome.content lines false) src fmts ks).events ∧
    "Error processing log file " ++ src ∈
      (process_log_file (FileOutcome.content lines true) src fmts ks).diagnostics ∧
    (mainRun fs args).events
      = (args.log_files.map (fun f =>
          (process_log_file (fs.read f) f (args.timestamp_format.getD TIMESTAMP_FORMATS)
            args.keywords).events)).flatten := by
  refine ⟨rfl, ?_, ?_⟩
  · show "Error processing log file " ++ src ∈
      (processLines src fmts ks lines).2 ++ ["Error processing log file " ++ src]
    exact List.mem_append.mpr (Or.inr (List.mem_singleton.mpr rfl))
  · have hfind : args.log_files.find? (fun f => !fs.isfile f) = none := by
      rw [List.find?_eq_none]
      intro f hf
      simp [hall f hf]
    show (mainRun fs args).events = _
    unfold mainRun
    rw [hfind]
    dsimp only
    rw [List.map_map]
    rfl

/-- C7 amended witness: over `fsW` (each file yields one parseable line and
then an I/O error) the two-file run still collects both files' events. -/
theorem C7_amended_partial_events_witness :
    "Error processing log file a.log" ∈
      (process_log_file (FileOutcome.content ["2024 x"] true) "a.log" ["%Y"] none).diagnostics ∧
    (mainRun fsW argsW).events
      = (argsW.log_files.map (fun f =>
          (process_log_file (fsW.read f) f (argsW.timestamp_format.getD TIMESTAMP_FORMATS)
            argsW.keywords).events)).flatten := by
  have h := C7_amended_partial_events ["2024 x"] "a.log" ["%Y"] none fsW argsW (by decide)
  exact ⟨h.2.1, h.2.2⟩

/-- C8 counterexample: the claim says a run naming a non-existent input file
reports failure with a non-zero status.  The validation loop of `main` does
detect the missing path before any processing and logs an error, but `main`
then plainly `return`s, so the interpreter exits with status 0 - not a
non-zero status. -/
theorem C8_counterexample :
    (mainRun fsEmpty ⟨["missing.log"], none, "info", none⟩).exitCode = 0 ∧
    (mainRun fsEmpty ⟨["missing.log"], none, "info", none⟩).events = [] ∧
    (mainRun fsEmpty ⟨["missing.log"], none, "info", none⟩).diagnostics
      = ["Invalid log file path: missing.log"] := by
  refine ⟨by decide, by decide, by decide⟩

/-- C8 amended: when some named input path is not an existing file, `main`
logs an error for the first such path and returns before any file
processing, so the run produces no events and no per-file diagnostics - but
the process exit status is 0, not non-zero. -/
theorem C8_amended_failfast_exit_zero (fs : FS) (args : Args)
    (h : ∃ f ∈ args.log_files, fs.isfile f = false) :
    (mainRun fs args).exitCode = 0 ∧
    (mainRun fs args).events = [] ∧
    ∃ bad ∈ args.log_files, fs.isfile bad = false ∧
      (mainRun fs args).diagnostics = ["Invalid log file path: " ++ bad] := by
  have hsome : (args.log_files.find? (fun f => !fs.isfile f)).isSome := by
    rw [List.find?_isSome]
    rcases h with ⟨f, hf, hff⟩
    exact ⟨f, hf, by simp [hff]⟩
  rcases hfind : args.log_files.find? (fun f => !fs.isfile f) with _ | bad
  · rw [hfind] at hsome; cases hsome
  · have hbadmem := List.mem_of_find?_eq_some hfind
    have hbadp := List.find?_some hfind
    have hbadfalse : fs.isfile bad = false := by
      simpa using hbadp
    refine ⟨?_, ?_, bad, hbadmem, hbadfalse, ?_⟩ <;>
      · unfold mainRun
        rw [hfind]

/-- C8 amended witness: a run over a filesystem with no files, naming
`"gone.log"`, exits with status 0 and produces nothing. -/
theorem C8_amended_failfast_exit_zero_witness :
    (mainRun fsEmpty ⟨["gone.log"], none, "info", none⟩).exitCode = 0 ∧
    (mainRun fsEmpty ⟨["gone.log"], none, "info", none⟩).events = [] := by
  have h := C8_amended_failfast_exit_zero fsEmpty ⟨["gone.log"], none, "info", none⟩
    ⟨"gone.log", List.mem_singleton.mpr rfl, rfl⟩
  exact ⟨h.1, h.2.1⟩

/-- C9: two runs on the same filesystem, file list, grammar list and keyword
list that differ only in the (valid) minimum-severity name produce identical
results: `main` computes `min_priority_level` and never uses it, so the
severity filter excludes nothing in the baseline. -/
theorem C9_priority_has_no_effect (fs : FS) (files : List String)
    (tf : Option (List String)) (kw : Option (List String)) (p q : String)
    (hp : (EVENT_PRIORITIES p).isSome = true)
    (hq : (EVENT_PRIORITIES q).isSome = true) :
    mainRun fs ⟨files, tf, p, kw⟩ = mainRun fs ⟨files, tf, q, kw⟩ := rfl

/-- C9 witness: minimum severity `"critical"` and `"info"` give the same
run result on a concrete filesystem and argument vector. -/
theorem C9_priority_has_no_effect_witness :
    mainRun fsW ⟨["a.log"], some ["%Y"], "critical", none⟩
      = mainRun fsW ⟨["a.log"], some ["%Y"], "info", none⟩ :=
  C9_priority_has_no_effect fsW ["a.log"] (some ["%Y"]) none "critical" "info" rfl rfl

/-- C10: with an explicitly empty keyword list, the `any` over no keywords
is false, so the keyword check rejects every description and no parsed event
is retained from any file - unlike an absent (`None`) keyword list, which
retains every parsed event. -/
theorem C10_empty_keyword_list_rejects_all (d : String) (lines : List String)
    (err : Bool) (src : String) (fmts : List String) :
    keywordMatch (some []) d = false ∧
    keywordMatch none d = true ∧
    (process_log_file (FileOutcome.content lines err) src fmts (some [])).events = [] ∧
    (process_log_file FileOutcome.notFound src fmts (some [])).events = [] := by
  refine ⟨rfl, rfl, ?_, rfl⟩
  show (processLines src fmts (some []) lines).1 = []
  exact processLines_empty_keywords src fmts lines

end ForensicTimeline
